import Mathlib

/-!
Shallow embedding of the Office Temperature Control Node
(src/contiki_nodes/node3/node3.c) and proofs about its
predictive-heating controller.

Modelling conventions:
* C `float`/`double` values are modelled as exact rationals (`ℚ`).  All the
  properties proved here are threshold comparisons and exact assignments for
  which the rational idealisation is faithful.
* C `int` values are modelled as `ℤ` (no overflow occurs in the ranges used).
* A C cast `(int)x` of a float is truncation toward zero (`ctrunc`).
* The array index computations `x % 168` operate on non-negative values in
  every reachable state; `idx168` uses `Int.toNat` followed by `Nat.mod`,
  which agrees with C `%` on non-negative arguments.
* `tempHistoryIndex` is kept in `Fin 96`: the C variable is an `int` that is
  always reduced `% TEMP_HISTORY_SIZE` immediately after increment.
* The black-box single-step ML predictor (`predict_single_step`, whose body
  lives behind `temperature_model.h`, outside this repository's sources) is a
  parameter `f : List ℚ → ℚ` of every operation that forecasts.
* `math.h`'s `sin` (an external library function) is a parameter `sinq` of
  the sensor-simulation environment.
* Calls to `random_rand()` are modelled by natural-number fields of an
  environment record `Env`, one per call site of a tick.
-/

namespace Node3

/-- C cast `(int)q` of a floating value: truncation toward zero. -/
def ctrunc (q : ℚ) : ℤ := if q < 0 then -((-q).floor) else q.floor

/-- Index into the 168-slot weekly schedule: C `x % 168` (arguments are
non-negative in every reachable state, where this agrees with C `%`). -/
def idx168 (z : ℤ) : Fin 168 := ⟨z.toNat % 168, Nat.mod_lt _ (by norm_num)⟩

/-- `TEMP_THRESHOLD_LOW`: turn-on threshold (node3.c line 67). -/
def TEMP_THRESHOLD_LOW : ℚ := 1

/-- `TEMP_THRESHOLD_HIGH`: turn-off threshold (node3.c line 68). -/
def TEMP_THRESHOLD_HIGH : ℚ := 2

/-- `MAX_CYCLE_OVERRIDE` (node3.c line 72). -/
def MAX_CYCLE_OVERRIDE : ℤ := 1576800000

/-- The module-level mutable state of node3.c (the `static` globals that the
temperature controller reads or writes). -/
structure State where
  isManualOverride : Bool
  isOptimizationEvent : Bool
  isHeatingOn : Bool
  isLedOn : Bool
  overrideCyclesRemaining : ℤ
  isAutoBehaviorEnabled : Bool
  temperatureHistory : Fin 96 → ℚ
  tempHistoryIndex : Fin 96
  tempHistoryFilled : Bool
  cyclesSinceLastTempCheck : ℤ
  predictedTemperature : ℚ
  predictionBuffer : Fin 96 → ℚ
  predictionBufferFilled : Bool
  targetTemperature : ℚ
  nextTargetTemperature : ℚ
  nextTargetHour : ℤ
  weeklySchedule : Fin 168 → ℚ
  scheduleInitialized : Bool
  simulatedTemperatureFloat : ℚ
  heatingRatePerCycle : ℚ
  coolingRatePerCycle : ℚ
  heatingChangeCooldown : ℤ
  simulatedHour : ℚ
  simulatedDay : ℤ
  clockSynced : Bool
  serverDayOfWeek : ℤ
  serverHour : ℤ
  serverMinute : ℤ
  isButtonOccupancyActive : Bool
  buttonOccupancyCyclesRemaining : ℤ
  isSystemOccupancyActive : Bool
  systemOccupancyCyclesRemaining : ℤ
  systemOccupancyPeriodLength : ℤ
  simulatedOccupancy : Bool
  isSystemSimulatingOccupancy : Bool
  ambientLightLevel : ℤ
  temperatureCelsius : ℤ
  humidityPercent : ℤ
  co2Ppm : ℤ
  roomEnergyUsageWh : ℤ
  historicalDataReceived : Bool

/-- `currentAbsoluteHour = simulatedDay * 24 + (int)simulatedHour`
(node3.c lines 720, 940). -/
def curAbs (s : State) : ℤ := s.simulatedDay * 24 + ctrunc s.simulatedHour

/-- `get_target_temperature` (node3.c lines 759-776). -/
def get_target_temperature (s : State) : ℚ :=
  if !s.scheduleInitialized then 0
  else
    let currentIndex := s.simulatedDay * 24 + ctrunc s.simulatedHour
    if h : 0 ≤ currentIndex ∧ currentIndex < 168 then
      s.weeklySchedule ⟨currentIndex.toNat, by omega⟩
    else 0

/-- The scan loop of `find_next_target_temperature` (node3.c lines 728-747):
examines index `(cur + o) % 168`, then `o+1`, ..., for `rem` offsets,
returning the first slot holding a positive value. -/
def scanAux (sched : Fin 168 → ℚ) (cur : ℤ) : ℤ → ℕ → Option (Fin 168)
  | _, 0 => none
  | o, rem + 1 =>
    let i := idx168 (cur + o)
    if sched i > 0 then some i else scanAux sched cur (o + 1) rem

/-- The full scan of `find_next_target_temperature`: offsets 1 to 168. -/
def findNextScan (sched : Fin 168 → ℚ) (cur : ℤ) : Option (Fin 168) :=
  scanAux sched cur 1 168

/-- `find_next_target_temperature` (node3.c lines 705-755). -/
def find_next_target (s : State) : State :=
  if !s.scheduleInitialized then
    { s with nextTargetTemperature := 0, nextTargetHour := -1 }
  else
    match findNextScan s.weeklySchedule (curAbs s) with
    | some i =>
        { s with nextTargetTemperature := s.weeklySchedule i,
                 nextTargetHour := ((i.val % 24 : ℕ) : ℤ) }
    | none => { s with nextTargetTemperature := 0, nextTargetHour := -1 }

/-- `add_temperature_to_history` (node3.c lines 780-787). -/
def add_temperature_to_history (s : State) (temp : ℚ) : State :=
  let hist := Function.update s.temperatureHistory s.tempHistoryIndex temp
  let newIdx := s.tempHistoryIndex + 1
  { s with temperatureHistory := hist,
           tempHistoryIndex := newIdx,
           tempHistoryFilled := if newIdx = 0 then true else s.tempHistoryFilled }

/-- The chronological rolling window built at the start of
`predict_next_24_hours` (node3.c lines 820-825): read 96 entries starting at
the write cursor, wrapping mod 96. -/
def snapshot (s : State) : List ℚ :=
  (List.range 96).map
    (fun k : ℕ => s.temperatureHistory (s.tempHistoryIndex + ((k : ℕ) : Fin 96)))

/-- One iteration of the forecast loop (node3.c lines 834-857): predict from
the window, emit the prediction, slide the window (drop oldest, append the
prediction). -/
def predictStepFn (f : List ℚ → ℚ) (p : List ℚ × List ℚ) : List ℚ × List ℚ :=
  let next := f p.1
  (p.1.tail ++ [next], p.2 ++ [next])

/-- `n` iterations of the forecast loop. -/
def predictIter (f : List ℚ → ℚ) : ℕ → List ℚ × List ℚ → List ℚ × List ℚ
  | 0, p => p
  | n + 1, p => predictIter f n (predictStepFn f p)

/-- The list of 96 forecast values produced from initial window `w0`. -/
@[irreducible] def predictions (f : List ℚ → ℚ) (w0 : List ℚ) : List ℚ :=
  (predictIter f 96 (w0, [])).2

/-- `predict_next_24_hours` (node3.c lines 811-876), with the single-step
predictor abstracted as `f`. -/
def predict_next_24_hours (f : List ℚ → ℚ) (s : State) : State :=
  let out := predictions f (snapshot s)
  { s with predictionBuffer := fun i => out.getD i.val 0,
           predictionBufferFilled := true,
           predictedTemperature := out.getD 0 0 }

/-- Accumulator of the 24-hour analysis loop of `control_heating`
(node3.c lines 929-971). -/
structure GapAcc where
  maxTempShortfall : ℚ
  shortfallStepIndex : ℤ
  criticalGapFound : Bool

/-- The per-step offset in hours cast to int:
`(int)((step + 1) * 0.25f + 0.5f)` (node3.c lines 945-946 and 1009). -/
def stepOffset (step : ℕ) : ℤ := ctrunc ((step + 1) * (1/4) + 1/2)

/-- One step of the analysis loop of `control_heating`
(node3.c lines 942-971). -/
def gapStep (sched : Fin 168 → ℚ) (buf : Fin 96 → ℚ) (cur : ℤ)
    (acc : GapAcc) (st : Fin 96) : GapAcc :=
  let scheduledTemp := sched (idx168 (cur + stepOffset st.val))
  if scheduledTemp > 0 then
    let tempGap := scheduledTemp - buf st
    let acc1 :=
      if tempGap > acc.maxTempShortfall then
        { acc with maxTempShortfall := tempGap, shortfallStepIndex := (st.val : ℤ) }
      else acc
    if tempGap > TEMP_THRESHOLD_LOW then { acc1 with criticalGapFound := true } else acc1
  else acc

/-- The analysis loop over the 96 forecast steps. -/
def gapScan (sched : Fin 168 → ℚ) (buf : Fin 96 → ℚ) (cur : ℤ) : GapAcc :=
  (List.finRange 96).foldl (gapStep sched buf cur) ⟨0, -1, false⟩

/-- The decision part of `control_heating` (node3.c lines 905-1036), after
the current and next targets have been refreshed. -/
def control_decide (sA : State) : State :=
  if !sA.scheduleInitialized || !sA.predictionBufferFilled then
      sA
  else
      let cur := curAbs sA
      let acc := gapScan sA.weeklySchedule sA.predictionBuffer cur
      let shouldHeat :=
        if acc.criticalGapFound then true
        else if acc.maxTempShortfall < -TEMP_THRESHOLD_HIGH then false
        else sA.isHeatingOn
      let optEvent :=
        if acc.criticalGapFound then sA.isOptimizationEvent
        else if acc.maxTempShortfall < -TEMP_THRESHOLD_HIGH then
          (if sA.isHeatingOn then true else sA.isOptimizationEvent)
        else sA.isOptimizationEvent
      let hasScheduledTemp :=
        (List.finRange 96).any
          (fun st => decide (sA.weeklySchedule (idx168 (cur + stepOffset st.val)) > 0))
      let shouldHeat2 :=
        if !hasScheduledTemp then
          if sA.predictedTemperature < 10 then true
          else if sA.predictedTemperature > 20 then false
          else sA.isHeatingOn
        else shouldHeat
      { sA with isHeatingOn := shouldHeat2, isOptimizationEvent := optEvent }

/-- `control_heating` (node3.c lines 880-1039). -/
def control_heating (s : State) : State :=
  if s.isManualOverride then s
  else if !s.isAutoBehaviorEnabled then s
  else control_decide (find_next_target { s with targetTemperature := get_target_temperature s })

/-- The loop body of `schedule_put_handler` (node3.c lines 475-501): write
validated entries one at a time; on an invalid entry stop with failure,
keeping the entries already written.  Returns (schedule, entry count, no
invalid entry was hit). -/
def schedWrite (sched : Fin 168 → ℚ) (idx : ℕ) : List ℤ → (Fin 168 → ℚ) × ℕ × Bool
  | [] => (sched, idx, true)
  | v :: rest =>
    if h : idx < 168 then
      if v = 0 ∨ (10 ≤ v ∧ v ≤ 30) then
        schedWrite (Function.update sched ⟨idx, h⟩ (v : ℚ)) (idx + 1) rest
      else (sched, idx, false)
    else (sched, idx, true)

/-- `schedule_put_handler` (node3.c lines 457-557).  The request payload is
the list of numbers in the JSON `schedule` array.  Returns the new state and
whether the handler reported success (`CHANGED_2_04`). -/
def schedule_put (f : List ℚ → ℚ) (s : State) (vs : List ℤ) : State × Bool :=
  let r := schedWrite s.weeklySchedule 0 vs
  let sW := { s with weeklySchedule := r.1 }
  if r.2.2 = false then (sW, false)
  else if r.2.1 = 168 then
    let sI := find_next_target { sW with scheduleInitialized := true }
    (predict_next_24_hours f sI, true)
  else (sW, false)

/-- `time_sync_put_handler` (node3.c lines 579-673).  The payload fields
default to -1 when absent.  Returns the new state and whether the handler
reported success. -/
def time_sync_put (f : List ℚ → ℚ) (s : State) (day hour minute : ℤ) : State × Bool :=
  if day < 0 ∨ 6 < day then (s, false)
  else if hour < 0 ∨ 23 < hour then (s, false)
  else if minute < 0 ∨ 59 < minute then (s, false)
  else
    let s1 := { s with simulatedDay := day,
                       simulatedHour := (hour : ℚ) + (minute : ℚ) / 60,
                       serverDayOfWeek := day, serverHour := hour, serverMinute := minute,
                       clockSynced := true }
    let s2 := find_next_target s1
    if !s2.historicalDataReceived then
      (predict_next_24_hours f
        { s2 with historicalDataReceived := true, tempHistoryFilled := true,
                  predictionBufferFilled := false }, true)
    else (s2, true)

/-- `MIN(MAX(v, 0), 1)` stored into a 0/1 flag (settings_put_handler). -/
def clampBit (v : ℤ) : Bool := decide (min (max v 0) 1 = 1)

/-- The numeric fields a settings PUT request may carry (absent fields are
`none`); unknown keys abort the parse and are not modelled, which only
removes suffixes of updates and reaches no further states. -/
structure SettingsMsg where
  mo : Option ℤ
  oe : Option ℤ
  hs : Option ℤ
  ls : Option ℤ
  od : Option ℤ
  ab : Option ℤ

/-- `settings_put_handler` (node3.c lines 349-429). -/
def settings_put (s : State) (m : SettingsMsg) : State :=
  let s1 := match m.mo with
    | some v => { s with isManualOverride := clampBit v }
    | none => s
  let s2 := match m.oe with
    | some v => { s1 with isOptimizationEvent := clampBit v }
    | none => s1
  let s3 := match m.hs with
    | some v => { s2 with isHeatingOn := clampBit v }
    | none => s2
  let s4 := match m.ls with
    | some v => { s3 with isLedOn := clampBit v }
    | none => s3
  let s5 := match m.od with
    | some v => { s4 with overrideCyclesRemaining := min (max v 0) MAX_CYCLE_OVERRIDE }
    | none => s4
  match m.ab with
  | some v => { s5 with isAutoBehaviorEnabled := clampBit v }
  | none => s5

/-- `handle_button_press_event` (node3.c lines 1559-1627), state part. -/
def handle_button_press (s : State) : State :=
  if s.isManualOverride then
    { s with isManualOverride := false, overrideCyclesRemaining := 0 }
  else
    { s with isManualOverride := true, isHeatingOn := !s.isHeatingOn,
             overrideCyclesRemaining := MAX_CYCLE_OVERRIDE }

/-- `check_override_expiry` (node3.c lines 1177-1197). -/
def check_override_expiry (s : State) : State :=
  if s.isManualOverride ∧ s.overrideCyclesRemaining > 0 then
    let c := s.overrideCyclesRemaining - 1
    if c ≤ 0 then
      { s with overrideCyclesRemaining := c, isManualOverride := false,
               isAutoBehaviorEnabled := true, heatingChangeCooldown := 5 }
    else { s with overrideCyclesRemaining := c }
  else s

/-- Per-tick environment: RPL reachability, the `random_rand()` draws of one
tick (one field per call site), and libm's `sin` as an external function. -/
structure Env where
  reachable : Bool
  rOccStart : ℕ
  rOccLen : ℕ
  rLight1 : ℕ
  rLight2 : ℕ
  rTemp : ℕ
  rHum1 : ℕ
  rHum2 : ℕ
  rCo2 : ℕ
  rEnergy : ℕ
  sinq : ℚ → ℚ

/-- `calculate_realistic_light` (node3.c lines 1200-1224). -/
def calculate_realistic_light (occupied : Bool) (r1 r2 : ℕ) : ℤ :=
  let baseLight : ℤ := if occupied then 400 + ((r1 % 200 : ℕ) : ℤ) else 0 + ((r1 % 10 : ℕ) : ℤ)
  let b1 := if baseLight < 0 then 0 else baseLight
  let b2 := if b1 > 750 then 750 else b1
  let variation := b2.tdiv 20
  let v := if variation < 1 then 1 else variation
  let b3 := b2 + ((r2 % (2 * v + 1).toNat : ℕ) : ℤ) - v
  if b3 < 1 then 1 else b3

/-- `simulate_realistic_temperature` (node3.c lines 1227-1254). -/
def simulate_realistic_temperature (s : State) (occupied : Bool) (rT : ℕ) : State :=
  let t0 :=
    if s.isHeatingOn then s.simulatedTemperatureFloat + s.heatingRatePerCycle
    else
      let ambientTemp : ℚ := if occupied then 20 else 18
      if s.simulatedTemperatureFloat > ambientTemp then
        s.simulatedTemperatureFloat - s.coolingRatePerCycle
      else if s.simulatedTemperatureFloat < ambientTemp then
        s.simulatedTemperatureFloat + s.coolingRatePerCycle * (3/10)
      else s.simulatedTemperatureFloat
  let t1 := t0 + ((((rT % 21 : ℕ) : ℚ)) - 10) / 100
  let t2 := if t1 < 10 then 10 else t1
  let t3 := if t2 > 35 then 35 else t2
  { s with simulatedTemperatureFloat := t3, temperatureCelsius := ctrunc (t3 + 1/2) }

/-- `calculate_realistic_humidity` (node3.c lines 1257-1282). -/
def calculate_realistic_humidity (s : State) (occupied : Bool) (r1 r2 : ℕ)
    (sinq : ℚ → ℚ) : ℤ :=
  let hourRad := s.simulatedHour * (314159/100000) / 12
  let b0 : ℤ := 25 + ctrunc (5 * sinq (hourRad + 314159/100000))
  let b1 := if s.temperatureCelsius > 22 then b0 - (s.temperatureCelsius - 22).tdiv 2 else b0
  let b2 := if occupied then b1 + 2 + ((r1 % 3 : ℕ) : ℤ) else b1
  let b3 := b2 + ((r2 % 5 : ℕ) : ℤ) - 2
  let b4 := if b3 < 20 then 20 else b3
  if b4 > 50 then 50 else b4

/-- `calculate_realistic_co2` (node3.c lines 1285-1304). -/
def calculate_realistic_co2 (s : State) (occupied : Bool) (r : ℕ)
    (sinq : ℚ → ℚ) : ℤ :=
  let b0 : ℤ := if occupied then 900 + ((r % 201 : ℕ) : ℤ) else 450 + ((r % 101 : ℕ) : ℤ)
  let hourRad := s.simulatedHour * (314159/100000) / 12
  let b1 := b0 + ctrunc (50 * sinq hourRad)
  let b2 := if b1 < 350 then 350 else b1
  if b2 > 1500 then 1500 else b2

/-- The part of `handle_sensor_event` that runs before the reachability
check (node3.c lines 1306-1377): override expiry, cooldown, simulated time
advance, occupancy-period management. -/
def tickPre (env : Env) (s : State) : State :=
  let s1 := check_override_expiry s
  let s2 :=
    if s1.heatingChangeCooldown > 0 then
      { s1 with heatingChangeCooldown := s1.heatingChangeCooldown - 1 }
    else s1
  let s3 := { s2 with isSystemSimulatingOccupancy := false }
  let s4 :=
    let h := s3.simulatedHour + 15/3600
    if h ≥ 24 then { s3 with simulatedHour := 0, simulatedDay := (s3.simulatedDay + 1).tmod 7 }
    else { s3 with simulatedHour := h }
  let s5 :=
    if !s4.isSystemOccupancyActive then
      let occupancyProbability : ℚ :=
        if (6 : ℚ) ≤ s4.simulatedHour ∧ s4.simulatedHour ≤ (23 : ℚ) then 1/100 else 5/1000
      if ((env.rOccStart % 100 : ℕ) : ℤ) < ctrunc (occupancyProbability * 100) then
        let len : ℤ := 6 + ((env.rOccLen % 75 : ℕ) : ℤ)
        { s4 with isSystemOccupancyActive := true,
                  systemOccupancyPeriodLength := len,
                  systemOccupancyCyclesRemaining := len }
      else { s4 with isSystemOccupancyActive := false }
    else s4
  let s6 :=
    if s5.isButtonOccupancyActive then { s5 with isSystemSimulatingOccupancy := true } else s5
  let s7 :=
    if s6.isSystemOccupancyActive then
      let c := s6.systemOccupancyCyclesRemaining - 1
      if c ≤ 0 then
        { s6 with isSystemSimulatingOccupancy := true,
                  systemOccupancyCyclesRemaining := c, isSystemOccupancyActive := false }
      else
        { s6 with isSystemSimulatingOccupancy := true, systemOccupancyCyclesRemaining := c }
    else s6
  { s7 with simulatedOccupancy := s7.isSystemSimulatingOccupancy }

/-- The sensor-processing part of `handle_sensor_event` that runs when the
node is reachable (node3.c lines 1380-1468): sensor simulation, history
push, target refresh, the 30-minute check, energy usage. -/
def tickSensors (f : List ℚ → ℚ) (env : Env) (s : State) : State :=
  let occupiedSum := s.isSystemSimulatingOccupancy || s.isButtonOccupancyActive
  let s1 := { s with ambientLightLevel :=
                calculate_realistic_light s.isSystemSimulatingOccupancy env.rLight1 env.rLight2 }
  let s2 := simulate_realistic_temperature s1 occupiedSum env.rTemp
  let s3 := { s2 with humidityPercent :=
                calculate_realistic_humidity s2 occupiedSum env.rHum1 env.rHum2 env.sinq }
  let s4 := { s3 with co2Ppm := calculate_realistic_co2 s3 occupiedSum env.rCo2 env.sinq }
  let s5 :=
    if s4.isButtonOccupancyActive then
      let c := s4.buttonOccupancyCyclesRemaining - 1
      if c ≤ 0 then { s4 with buttonOccupancyCyclesRemaining := c, isButtonOccupancyActive := false }
      else { s4 with buttonOccupancyCyclesRemaining := c }
    else s4
  let s6 := add_temperature_to_history s5 (s5.temperatureCelsius : ℚ)
  let s7 := { s6 with targetTemperature := get_target_temperature s6 }
  let s8 := { s7 with cyclesSinceLastTempCheck := s7.cyclesSinceLastTempCheck + 1 }
  let s9 :=
    if s8.cyclesSinceLastTempCheck ≥ 120 then
      let sB := predict_next_24_hours f { s8 with cyclesSinceLastTempCheck := 0 }
      if sB.isAutoBehaviorEnabled then control_heating sB else sB
    else s8
  let e0 : ℤ := if s9.isHeatingOn then 15 else 2
  let ev := if e0.tdiv 20 < 1 then 1 else e0.tdiv 20
  let e1 := e0 + ((env.rEnergy % (2 * ev + 1).toNat : ℕ) : ℤ) - ev
  { s9 with roomEnergyUsageWh := if e1 < 1 then 1 else e1 }

/-- One tick of `handle_sensor_event` (node3.c lines 1306-1557).  The second
component records whether this tick reached the MQTT publish step
(`publish_sensor_data`, line 1546): when `clockSynced` is false the handler
returns at line 1492 before publishing. -/
def tick (f : List ℚ → ℚ) (env : Env) (s : State) : State × Bool :=
  let s1 := tickPre env s
  if env.reachable then
    let s2 := tickSensors f env s1
    if !s2.clockSynced then (s2, false) else (s2, true)
  else (s1, false)

/-- `initialize_default_schedule`'s schedule contents (node3.c lines
677-690): for every day, hour 7 is 22, hour 9 is 18, hour 18 is 22, hour 23
is 18, all other hours 0.  Since slot `i` covers day `i / 24` and hour
`i % 24`, the per-day loop amounts to this hour-of-day table. -/
def defaultSchedule : Fin 168 → ℚ := fun i =>
  if i.val % 24 = 7 then 22
  else if i.val % 24 = 9 then 18
  else if i.val % 24 = 18 then 22
  else if i.val % 24 = 23 then 18
  else 0

/-- The global state after the initialisation part of
`PROCESS_THREAD(node3_process)` (node3.c lines 1629-1723) up to and
including `initialize_default_schedule`: C zero/static initialisers, the
temperature-system defaults, and the default schedule. -/
def bootBase : State :=
    { isManualOverride := false
      isOptimizationEvent := false
      isHeatingOn := false
      isLedOn := false
      overrideCyclesRemaining := 0
      isAutoBehaviorEnabled := true
      temperatureHistory := fun _ => 20
      tempHistoryIndex := 0
      tempHistoryFilled := true
      cyclesSinceLastTempCheck := 0
      predictedTemperature := 22
      predictionBuffer := fun _ => 0
      predictionBufferFilled := false
      targetTemperature := 0
      nextTargetTemperature := 0
      nextTargetHour := -1
      weeklySchedule := defaultSchedule
      scheduleInitialized := true
      simulatedTemperatureFloat := 20
      heatingRatePerCycle := 1/120
      coolingRatePerCycle := 1/240
      heatingChangeCooldown := 0
      simulatedHour := 0
      simulatedDay := 0
      clockSynced := false
      serverDayOfWeek := 0
      serverHour := 0
      serverMinute := 0
      isButtonOccupancyActive := false
      buttonOccupancyCyclesRemaining := 0
      isSystemOccupancyActive := false
      systemOccupancyCyclesRemaining := 0
      systemOccupancyPeriodLength := 0
      simulatedOccupancy := false
      isSystemSimulatingOccupancy := false
      ambientLightLevel := 15
      temperatureCelsius := 20
      humidityPercent := 30
      co2Ppm := 400
      roomEnergyUsageWh := 2
      historicalDataReceived := false }

/-- The boot state after the remaining initial target lookups of
`PROCESS_THREAD` (node3.c lines 1719-1723). -/
def initState : State :=
  find_next_target { bootBase with targetTemperature := get_target_temperature bootBase }

/-- The states the node3 process can reach: boot, then any interleaving of
sensor ticks, CoAP handlers and button presses. -/
inductive Reachable : State → Prop where
  | boot : Reachable initState
  | tickStep (f : List ℚ → ℚ) (env : Env) (s : State) :
      Reachable s → Reachable (tick f env s).1
  | schedulePut (f : List ℚ → ℚ) (vs : List ℤ) (s : State) :
      Reachable s → Reachable (schedule_put f s vs).1
  | timeSyncPut (f : List ℚ → ℚ) (d h m : ℤ) (s : State) :
      Reachable s → Reachable (time_sync_put f s d h m).1
  | settingsPut (m : SettingsMsg) (s : State) :
      Reachable s → Reachable (settings_put s m)
  | buttonPress (s : State) : Reachable s → Reachable (handle_button_press s)

/-- A legal weekly-schedule slot: 0 (unset) or a whole-degree value in
[10, 30]. -/
def ValidSlot (q : ℚ) : Prop := q = 0 ∨ (q.den = 1 ∧ 10 ≤ q ∧ q ≤ 30)

/-- Scheduled target consulted for forecast step `st` by `control_heating`. -/
def slotTargetAt (s : State) (st : Fin 96) : ℚ :=
  s.weeklySchedule (idx168 (curAbs s + stepOffset st.val))

/-- Gap (scheduled target minus forecast value) at forecast step `st`. -/
def gapAt (s : State) (st : Fin 96) : ℚ := slotTargetAt s st - s.predictionBuffer st

/-- The tracked maximum gap of `control_heating`: the running maximum the
code keeps, seeded with 0 (node3.c lines 931, 957-960). -/
def trackedMaxGap (s : State) : ℚ :=
  (List.finRange 96).foldl
    (fun m st => if slotTargetAt s st > 0 ∧ gapAt s st > m then gapAt s st else m) 0

/-! Concrete fixtures for closed evaluations (counterexamples and witnesses). -/

/-- A trivial single-step predictor for concrete evaluations. -/
def model0 : List ℚ → ℚ := fun _ => 0

/-- A deterministic environment for concrete tick evaluations: node
reachable, all random draws fixed, `sin` stubbed to 0. -/
def env0 : Env :=
  { reachable := true, rOccStart := 99, rOccLen := 0, rLight1 := 0, rLight2 := 0,
    rTemp := 10, rHum1 := 0, rHum2 := 0, rCo2 := 0, rEnergy := 0, sinq := fun _ => 0 }

/-- A post-boot state at the 30-minute check whose schedule is initialized
but entirely unset (a bulk replace of 168 zeros does this), with a filled
prediction buffer forecasting 5 degrees everywhere and heating off. -/
def cexNoSlotState : State :=
  { bootBase with weeklySchedule := fun _ => 0,
                   predictionBufferFilled := true,
                   predictionBuffer := fun _ => 5,
                   predictedTemperature := 5,
                   clockSynced := true }

/-- A post-boot state at the 30-minute check with the default schedule and a
filled prediction buffer forecasting a flat 15 degrees. -/
def witGapState : State :=
  { bootBase with predictionBufferFilled := true,
                   predictionBuffer := fun _ => 15,
                   predictedTemperature := 15,
                   clockSynced := true }

/-- A post-boot state whose schedule has exactly one set slot: the slot of
the current hour (day 0, hour 0). -/
def cexCurSlotState : State :=
  { bootBase with weeklySchedule := fun i => if i = (0 : Fin 168) then 20 else 0 }

/-- The failed schedule-replace request used against C2: first entry valid,
second entry out of range. -/
def schedCexPayload : List ℤ := [15, 99]

/-- A boot state whose clock has been marked synchronized. -/
def syncState : State := { bootBase with clockSynced := true }

/-! Projection lemmas: which fields each operation leaves untouched. -/

theorem find_next_target_weeklySchedule (s : State) :
    (find_next_target s).weeklySchedule = s.weeklySchedule := by
  unfold find_next_target
  split
  · rfl
  · split <;> rfl

theorem find_next_target_clockSynced (s : State) :
    (find_next_target s).clockSynced = s.clockSynced := by
  unfold find_next_target
  split
  · rfl
  · split <;> rfl

theorem find_next_target_isManualOverride (s : State) :
    (find_next_target s).isManualOverride = s.isManualOverride := by
  unfold find_next_target
  split
  · rfl
  · split <;> rfl

theorem find_next_target_overrideCyclesRemaining (s : State) :
    (find_next_target s).overrideCyclesRemaining = s.overrideCyclesRemaining := by
  unfold find_next_target
  split
  · rfl
  · split <;> rfl

theorem find_next_target_scheduleInitialized (s : State) :
    (find_next_target s).scheduleInitialized = s.scheduleInitialized := by
  unfold find_next_target
  split
  · rfl
  · split <;> rfl

theorem find_next_target_predictionBufferFilled (s : State) :
    (find_next_target s).predictionBufferFilled = s.predictionBufferFilled := by
  unfold find_next_target
  split
  · rfl
  · split <;> rfl

theorem find_next_target_predictionBuffer (s : State) :
    (find_next_target s).predictionBuffer = s.predictionBuffer := by
  unfold find_next_target
  split
  · rfl
  · split <;> rfl

theorem find_next_target_isHeatingOn (s : State) :
    (find_next_target s).isHeatingOn = s.isHeatingOn := by
  unfold find_next_target
  split
  · rfl
  · split <;> rfl

theorem find_next_target_isAutoBehaviorEnabled (s : State) :
    (find_next_target s).isAutoBehaviorEnabled = s.isAutoBehaviorEnabled := by
  unfold find_next_target
  split
  · rfl
  · split <;> rfl

theorem find_next_target_isOptimizationEvent (s : State) :
    (find_next_target s).isOptimizationEvent = s.isOptimizationEvent := by
  unfold find_next_target
  split
  · rfl
  · split <;> rfl

theorem find_next_target_predictedTemperature (s : State) :
    (find_next_target s).predictedTemperature = s.predictedTemperature := by
  unfold find_next_target
  split
  · rfl
  · split <;> rfl

theorem find_next_target_simulatedDay (s : State) :
    (find_next_target s).simulatedDay = s.simulatedDay := by
  unfold find_next_target
  split
  · rfl
  · split <;> rfl

theorem find_next_target_simulatedHour (s : State) :
    (find_next_target s).simulatedHour = s.simulatedHour := by
  unfold find_next_target
  split
  · rfl
  · split <;> rfl

theorem curAbs_find_next_target (s : State) : curAbs (find_next_target s) = curAbs s := by
  unfold curAbs
  rw [find_next_target_simulatedDay, find_next_target_simulatedHour]

theorem check_override_expiry_weeklySchedule (s : State) :
    (check_override_expiry s).weeklySchedule = s.weeklySchedule := by
  unfold check_override_expiry
  dsimp only
  split
  · split <;> rfl
  · rfl

theorem check_override_expiry_clockSynced (s : State) :
    (check_override_expiry s).clockSynced = s.clockSynced := by
  unfold check_override_expiry
  dsimp only
  split
  · split <;> rfl
  · rfl

theorem simulate_temp_weeklySchedule (s : State) (occ : Bool) (r : ℕ) :
    (simulate_realistic_temperature s occ r).weeklySchedule = s.weeklySchedule := rfl

theorem simulate_temp_clockSynced (s : State) (occ : Bool) (r : ℕ) :
    (simulate_realistic_temperature s occ r).clockSynced = s.clockSynced := rfl

theorem simulate_temp_isManualOverride (s : State) (occ : Bool) (r : ℕ) :
    (simulate_realistic_temperature s occ r).isManualOverride = s.isManualOverride := rfl

theorem simulate_temp_overrideCyclesRemaining (s : State) (occ : Bool) (r : ℕ) :
    (simulate_realistic_temperature s occ r).overrideCyclesRemaining =
      s.overrideCyclesRemaining := rfl

theorem add_temperature_weeklySchedule (s : State) (t : ℚ) :
    (add_temperature_to_history s t).weeklySchedule = s.weeklySchedule := rfl

theorem add_temperature_clockSynced (s : State) (t : ℚ) :
    (add_temperature_to_history s t).clockSynced = s.clockSynced := rfl

theorem add_temperature_isManualOverride (s : State) (t : ℚ) :
    (add_temperature_to_history s t).isManualOverride = s.isManualOverride := rfl

theorem add_temperature_overrideCyclesRemaining (s : State) (t : ℚ) :
    (add_temperature_to_history s t).overrideCyclesRemaining = s.overrideCyclesRemaining := rfl

theorem predict_weeklySchedule (f : List ℚ → ℚ) (s : State) :
    (predict_next_24_hours f s).weeklySchedule = s.weeklySchedule := rfl

theorem predict_clockSynced (f : List ℚ → ℚ) (s : State) :
    (predict_next_24_hours f s).clockSynced = s.clockSynced := rfl

theorem predict_isManualOverride (f : List ℚ → ℚ) (s : State) :
    (predict_next_24_hours f s).isManualOverride = s.isManualOverride := rfl

theorem predict_overrideCyclesRemaining (f : List ℚ → ℚ) (s : State) :
    (predict_next_24_hours f s).overrideCyclesRemaining = s.overrideCyclesRemaining := rfl

theorem predict_simulatedDay (f : List ℚ → ℚ) (s : State) :
    (predict_next_24_hours f s).simulatedDay = s.simulatedDay := rfl

theorem predict_simulatedHour (f : List ℚ → ℚ) (s : State) :
    (predict_next_24_hours f s).simulatedHour = s.simulatedHour := rfl

theorem predict_serverDayOfWeek (f : List ℚ → ℚ) (s : State) :
    (predict_next_24_hours f s).serverDayOfWeek = s.serverDayOfWeek := rfl

theorem predict_serverHour (f : List ℚ → ℚ) (s : State) :
    (predict_next_24_hours f s).serverHour = s.serverHour := rfl

theorem predict_serverMinute (f : List ℚ → ℚ) (s : State) :
    (predict_next_24_hours f s).serverMinute = s.serverMinute := rfl

theorem find_next_target_serverDayOfWeek (s : State) :
    (find_next_target s).serverDayOfWeek = s.serverDayOfWeek := by
  unfold find_next_target
  split
  · rfl
  · split <;> rfl

theorem find_next_target_serverHour (s : State) :
    (find_next_target s).serverHour = s.serverHour := by
  unfold find_next_target
  split
  · rfl
  · split <;> rfl

theorem find_next_target_serverMinute (s : State) :
    (find_next_target s).serverMinute = s.serverMinute := by
  unfold find_next_target
  split
  · rfl
  · split <;> rfl

theorem control_decide_weeklySchedule (s : State) :
    (control_decide s).weeklySchedule = s.weeklySchedule := by
  unfold control_decide
  dsimp only
  split <;> rfl

theorem control_decide_clockSynced (s : State) :
    (control_decide s).clockSynced = s.clockSynced := by
  unfold control_decide
  dsimp only
  split <;> rfl

theorem control_decide_isManualOverride (s : State) :
    (control_decide s).isManualOverride = s.isManualOverride := by
  unfold control_decide
  dsimp only
  split <;> rfl

theorem control_decide_overrideCyclesRemaining (s : State) :
    (control_decide s).overrideCyclesRemaining = s.overrideCyclesRemaining := by
  unfold control_decide
  dsimp only
  split <;> rfl

theorem control_heating_weeklySchedule (s : State) :
    (control_heating s).weeklySchedule = s.weeklySchedule := by
  unfold control_heating
  split
  · rfl
  split
  · rfl
  rw [control_decide_weeklySchedule, find_next_target_weeklySchedule]

theorem control_heating_clockSynced (s : State) :
    (control_heating s).clockSynced = s.clockSynced := by
  unfold control_heating
  split
  · rfl
  split
  · rfl
  rw [control_decide_clockSynced, find_next_target_clockSynced]

theorem control_heating_isManualOverride (s : State) :
    (control_heating s).isManualOverride = s.isManualOverride := by
  unfold control_heating
  split
  · rfl
  split
  · rfl
  rw [control_decide_isManualOverride, find_next_target_isManualOverride]

theorem control_heating_overrideCyclesRemaining (s : State) :
    (control_heating s).overrideCyclesRemaining = s.overrideCyclesRemaining := by
  unfold control_heating
  split
  · rfl
  split
  · rfl
  rw [control_decide_overrideCyclesRemaining, find_next_target_overrideCyclesRemaining]

theorem tickPre_weeklySchedule (env : Env) (s : State) :
    (tickPre env s).weeklySchedule = s.weeklySchedule := by
  unfold tickPre check_override_expiry
  dsimp only
  simp [apply_ite State.weeklySchedule]

theorem tickPre_clockSynced (env : Env) (s : State) :
    (tickPre env s).clockSynced = s.clockSynced := by
  unfold tickPre check_override_expiry
  dsimp only
  simp [apply_ite State.clockSynced]

theorem tickPre_isManualOverride (env : Env) (s : State) :
    (tickPre env s).isManualOverride = (check_override_expiry s).isManualOverride := by
  unfold tickPre
  dsimp only
  simp [apply_ite State.isManualOverride]

theorem tickPre_overrideCyclesRemaining (env : Env) (s : State) :
    (tickPre env s).overrideCyclesRemaining =
      (check_override_expiry s).overrideCyclesRemaining := by
  unfold tickPre
  dsimp only
  simp [apply_ite State.overrideCyclesRemaining]

theorem tickSensors_weeklySchedule (f : List ℚ → ℚ) (env : Env) (s : State) :
    (tickSensors f env s).weeklySchedule = s.weeklySchedule := by
  unfold tickSensors
  dsimp only
  simp [apply_ite State.weeklySchedule, control_heating_weeklySchedule,
    predict_weeklySchedule, add_temperature_weeklySchedule, simulate_temp_weeklySchedule]

theorem tickSensors_clockSynced (f : List ℚ → ℚ) (env : Env) (s : State) :
    (tickSensors f env s).clockSynced = s.clockSynced := by
  unfold tickSensors
  dsimp only
  simp [apply_ite State.clockSynced, control_heating_clockSynced,
    predict_clockSynced, add_temperature_clockSynced, simulate_temp_clockSynced]

theorem tickSensors_isManualOverride (f : List ℚ → ℚ) (env : Env) (s : State) :
    (tickSensors f env s).isManualOverride = s.isManualOverride := by
  unfold tickSensors
  dsimp only
  simp [apply_ite State.isManualOverride, control_heating_isManualOverride,
    predict_isManualOverride, add_temperature_isManualOverride, simulate_temp_isManualOverride]

theorem tickSensors_overrideCyclesRemaining (f : List ℚ → ℚ) (env : Env) (s : State) :
    (tickSensors f env s).overrideCyclesRemaining = s.overrideCyclesRemaining := by
  unfold tickSensors
  dsimp only
  simp [apply_ite State.overrideCyclesRemaining, control_heating_overrideCyclesRemaining,
    predict_overrideCyclesRemaining, add_temperature_overrideCyclesRemaining,
    simulate_temp_overrideCyclesRemaining]

theorem tick_weeklySchedule (f : List ℚ → ℚ) (env : Env) (s : State) :
    (tick f env s).1.weeklySchedule = s.weeklySchedule := by
  unfold tick
  dsimp only
  split <;> [skip; simp only [tickPre_weeklySchedule]]
  split <;>
    simp only [tickSensors_weeklySchedule, tickPre_weeklySchedule]

theorem settings_put_weeklySchedule (s : State) (m : SettingsMsg) :
    (settings_put s m).weeklySchedule = s.weeklySchedule := by
  obtain ⟨mo, oe, hs, ls, od, ab⟩ := m
  unfold settings_put
  rcases mo <;> rcases oe <;> rcases hs <;> rcases ls <;> rcases od <;> rcases ab <;> rfl

theorem handle_button_press_weeklySchedule (s : State) :
    (handle_button_press s).weeklySchedule = s.weeklySchedule := by
  unfold handle_button_press
  split <;> rfl

theorem time_sync_put_weeklySchedule (f : List ℚ → ℚ) (s : State) (d h m : ℤ) :
    (time_sync_put f s d h m).1.weeklySchedule = s.weeklySchedule := by
  unfold time_sync_put
  dsimp only
  simp [apply_ite Prod.fst, apply_ite State.weeklySchedule,
    predict_weeklySchedule, find_next_target_weeklySchedule]

/-! The claims. -/

/-- C4: for every forecast, schedule and clock state, if manual override is
active then `control_heating` returns with the state unchanged — the
automatic policy does not run and no controller field is modified. -/
theorem C4_override_blocks_decision (s : State) (h : s.isManualOverride = true) :
    control_heating s = s := by
  unfold control_heating
  rw [if_pos h]

/-- Witness for C4: a concrete override-active state is left untouched. -/
theorem C4_override_blocks_decision_witness :
    ({ bootBase with isManualOverride := true } : State).isManualOverride = true ∧
      control_heating { bootBase with isManualOverride := true } =
        { bootBase with isManualOverride := true } :=
  ⟨rfl, C4_override_blocks_decision _ rfl⟩

/-- C5: a clock-sync request with any field out of range (day 0-6, hour
0-23, minute 0-59) is rejected with no state change at all; a valid request
overwrites the simulated day and hour (hour + minute/60) and the stored
server time with the supplied values and marks the clock synchronized,
reporting success. -/
theorem C5_time_sync_validation (f : List ℚ → ℚ) (s : State) (d h m : ℤ) :
    if d < 0 ∨ 6 < d ∨ h < 0 ∨ 23 < h ∨ m < 0 ∨ 59 < m then
      time_sync_put f s d h m = (s, false)
    else
      (time_sync_put f s d h m).1.simulatedDay = d ∧
      (time_sync_put f s d h m).1.simulatedHour = (h : ℚ) + (m : ℚ) / 60 ∧
      (time_sync_put f s d h m).1.serverDayOfWeek = d ∧
      (time_sync_put f s d h m).1.serverHour = h ∧
      (time_sync_put f s d h m).1.serverMinute = m ∧
      (time_sync_put f s d h m).1.clockSynced = true ∧
      (time_sync_put f s d h m).2 = true := by
  by_cases hv : d < 0 ∨ 6 < d ∨ h < 0 ∨ 23 < h ∨ m < 0 ∨ 59 < m
  · rw [if_pos hv]
    unfold time_sync_put
    dsimp only
    split
    · rfl
    split
    · rfl
    split
    · rfl
    · exfalso
      omega
  · rw [if_neg hv]
    push_neg at hv
    unfold time_sync_put
    rw [if_neg (by omega), if_neg (by omega), if_neg (by omega)]
    dsimp only
    split <;>
      refine ⟨?_, ?_, ?_, ?_, ?_, ?_, rfl⟩ <;>
        simp only [predict_simulatedDay, predict_simulatedHour, predict_serverDayOfWeek,
          predict_serverHour, predict_serverMinute, predict_clockSynced,
          find_next_target_simulatedDay, find_next_target_simulatedHour,
          find_next_target_serverDayOfWeek, find_next_target_serverHour,
          find_next_target_serverMinute, find_next_target_clockSynced]

/-- C10: an override that is active with 0 cycles remaining is not expired
by the per-tick check (`check_override_expiry` leaves the whole state
unchanged, auto mode is not re-enabled), and a full sensor tick keeps the
override active with 0 cycles remaining — it can end only by explicit
deactivation. -/
theorem C10_zero_cycle_override (f : List ℚ → ℚ) (env : Env) (s : State)
    (hmo : s.isManualOverride = true) (hcyc : s.overrideCyclesRemaining = 0) :
    check_override_expiry s = s ∧
      (tick f env s).1.isManualOverride = true ∧
      (tick f env s).1.overrideCyclesRemaining = 0 := by
  have hid : check_override_expiry s = s := by
    unfold check_override_expiry
    rw [if_neg]
    simp [hmo, hcyc]
  refine ⟨hid, ?_, ?_⟩
  · show (tick f env s).1.isManualOverride = true
    unfold tick
    dsimp only
    split
    · split <;>
        (dsimp only; rw [tickSensors_isManualOverride, tickPre_isManualOverride, hid, hmo])
    · rw [tickPre_isManualOverride, hid, hmo]
  · show (tick f env s).1.overrideCyclesRemaining = 0
    unfold tick
    dsimp only
    split
    · split <;>
        (dsimp only;
         rw [tickSensors_overrideCyclesRemaining, tickPre_overrideCyclesRemaining, hid, hcyc])
    · rw [tickPre_overrideCyclesRemaining, hid, hcyc]

/-- Witness for C10: concrete override-active state with 0 cycles left. -/
theorem C10_zero_cycle_override_witness :
    ({ bootBase with isManualOverride := true } : State).isManualOverride = true ∧
      ({ bootBase with isManualOverride := true } : State).overrideCyclesRemaining = 0 ∧
      (check_override_expiry { bootBase with isManualOverride := true } =
          { bootBase with isManualOverride := true } ∧
        (tick model0 env0 { bootBase with isManualOverride := true }).1.isManualOverride = true ∧
        (tick model0 env0
            { bootBase with isManualOverride := true }).1.overrideCyclesRemaining = 0) :=
  ⟨rfl, rfl, C10_zero_cycle_override model0 env0 _ rfl rfl⟩

/-! Ring-buffer lemmas for C7. -/

theorem snapshot_length (s : State) : (snapshot s).length = 96 := by
  rw [snapshot, List.length_map, List.length_range]

theorem snapshot_push (s : State) (v : ℚ) :
    snapshot (add_temperature_to_history s v) = (snapshot s).tail ++ [v] := by
  rw [snapshot, snapshot]
  conv_lhs => rw [show List.range 96 = List.range 95 ++ [95] from List.range_succ 95]
  conv_rhs => rw [show List.range 96 = 0 :: List.map Nat.succ (List.range 95) from
    List.range_succ_eq_map 95]
  rw [List.map_append]
  simp only [List.map_cons, List.map_nil, List.tail_cons, List.map_map]
  unfold add_temperature_to_history
  dsimp only
  congr 1
  · apply List.map_congr_left
    intro k hk
    have hk95 : k < 95 := List.mem_range.mp hk
    have hi := s.tempHistoryIndex.isLt
    have hne : s.tempHistoryIndex + 1 + ((k : ℕ) : Fin 96) ≠ s.tempHistoryIndex := by
      simp only [ne_eq, Fin.ext_iff, Fin.val_add, Fin.val_natCast, Fin.val_one]
      omega
    rw [Function.update_noteq hne]
    congr 1
    rw [Fin.ext_iff]
    simp only [Fin.val_add, Fin.val_natCast, Fin.val_one, Function.comp_apply, Nat.succ_eq_add_one]
    omega
  · have heq : s.tempHistoryIndex + 1 + ((95 : ℕ) : Fin 96) = s.tempHistoryIndex := by
      rw [Fin.ext_iff]
      simp only [Fin.val_add, Fin.val_natCast, Fin.val_one]
      have hi := s.tempHistoryIndex.isLt
      omega
    rw [heq, Function.update_same]

theorem snapshot_pushAll (s : State) (vs : List ℚ) :
    snapshot (vs.foldl add_temperature_to_history s) = ((snapshot s) ++ vs).drop vs.length := by
  induction vs generalizing s with
  | nil => simp
  | cons v rest ih =>
    rw [List.foldl_cons, ih, snapshot_push]
    have hlen : (snapshot s).length = 96 := snapshot_length s
    match hsn : snapshot s with
    | [] => simp [hsn] at hlen
    | a :: t =>
      simp only [List.tail_cons, List.length_cons, List.cons_append, List.drop_succ_cons,
        List.append_assoc, List.singleton_append, List.nil_append]

/-- C7: starting from the boot state (capacity 96, pre-filled with the 20°C
default, write cursor 0), after any sequence of pushes the chronological
snapshot taken from the write cursor has length exactly 96 and its last
`min n 96` elements are the last `min n 96` pushed values in push order. -/
theorem C7_history_snapshot (vs : List ℚ) :
    (snapshot (vs.foldl add_temperature_to_history initState)).length = 96 ∧
      (snapshot (vs.foldl add_temperature_to_history initState)).drop (96 - min vs.length 96) =
        vs.drop (vs.length - min vs.length 96) := by
  have hsnap := snapshot_pushAll initState vs
  have hlen : (snapshot initState).length = 96 := snapshot_length initState
  constructor
  · rw [hsnap]
    simp [hlen]
  · rw [hsnap, List.drop_drop]
    rcases le_or_lt vs.length 96 with hle | hlt
    · have h1 : vs.length + (96 - min vs.length 96) = 96 := by omega
      have h2 : vs.length - min vs.length 96 = 0 := by omega
      rw [h1, h2, ← hlen, List.drop_left, List.drop_zero]
    · have h1 : vs.length + (96 - min vs.length 96) = vs.length := by omega
      have h2 : vs.length - min vs.length 96 = vs.length - 96 := by omega
      rw [h1, h2, List.drop_append_eq_append_drop, hlen,
        List.drop_eq_nil_of_le (by omega), List.nil_append]

/-! Forecast-loop lemmas for C6. -/

theorem predictIter_succ (f : List ℚ → ℚ) (n : ℕ) (p : List ℚ × List ℚ) :
    predictIter f (n + 1) p = predictStepFn f (predictIter f n p) := by
  induction n generalizing p with
  | zero => rfl
  | succ n ih =>
    show predictIter f (n + 1) (predictStepFn f p) = _
    rw [ih]
    rfl

theorem predictIter_len_win (f : List ℚ → ℚ) (w0 : List ℚ) (hw : w0.length = 96) (n : ℕ) :
    (predictIter f n (w0, [])).2.length = n ∧
      (predictIter f n (w0, [])).1 = (w0 ++ (predictIter f n (w0, [])).2).drop n := by
  induction n with
  | zero => simp [predictIter]
  | succ n ih =>
    obtain ⟨hlen, hwin⟩ := ih
    rw [predictIter_succ]
    unfold predictStepFn
    dsimp only
    constructor
    · rw [List.length_append, hlen]
      rfl
    · have hlen2 : n + 1 ≤ (w0 ++ (predictIter f n (w0, [])).2).length := by
        rw [List.length_append, hw, hlen]
        omega
      rw [hwin, List.tail_drop, ← List.append_assoc]
      conv_rhs => rw [List.drop_append_of_le_length hlen2]

theorem predictOut_succ (f : List ℚ → ℚ) (w0 : List ℚ) (n : ℕ) :
    (predictIter f (n + 1) (w0, [])).2 =
      (predictIter f n (w0, [])).2 ++ [f (predictIter f n (w0, [])).1] := by
  rw [predictIter_succ]
  rfl

theorem predictOut_take (f : List ℚ → ℚ) (w0 : List ℚ) (hw : w0.length = 96) :
    ∀ m n : ℕ, n ≤ m → ((predictIter f m (w0, [])).2).take n = (predictIter f n (w0, [])).2 := by
  intro m
  induction m with
  | zero =>
    intro n hn
    interval_cases n
    simp [predictIter]
  | succ m ih =>
    intro n hn
    rcases Nat.lt_or_ge n (m + 1) with hlt | hge
    · rw [predictOut_succ,
        List.take_append_of_le_length (by rw [(predictIter_len_win f w0 hw m).1]; omega),
        ih n (by omega)]
    · have hn1 : n = m + 1 := by omega
      subst hn1
      exact List.take_of_length_le (le_of_eq (predictIter_len_win f w0 hw (m + 1)).1)

/-- C6: for every input history and every single-step predictor, the
forecast loop emits exactly 96 values, and the value at step `i` is the
predictor applied to the window obtained from the chronological history
snapshot by dropping its `i` oldest entries and appending the first `i`
forecast values — each prediction is fed back as the newest window element
for the next step, never ground truth. -/
theorem C6_forecast_autoregressive (f : List ℚ → ℚ) (s : State) :
    (predictions f (snapshot s)).length = 96 ∧
      ∀ i : Fin 96,
        (predictions f (snapshot s))[(i : ℕ)]? =
          some (f ((snapshot s).drop (i : ℕ) ++ (predictions f (snapshot s)).take (i : ℕ))) := by
  have hw := snapshot_length s
  unfold predictions
  refine ⟨(predictIter_len_win f (snapshot s) hw 96).1, ?_⟩
  intro i
  have hi : (i : ℕ) < 96 := i.isLt
  have hlen96 : (predictIter f 96 (snapshot s, [])).2.length = 96 :=
    (predictIter_len_win f (snapshot s) hw 96).1
  have hleni : (predictIter f (i : ℕ) (snapshot s, [])).2.length = (i : ℕ) :=
    (predictIter_len_win f (snapshot s) hw (i : ℕ)).1
  have htake1 : ((predictIter f 96 (snapshot s, [])).2).take ((i : ℕ) + 1) =
      (predictIter f ((i : ℕ) + 1) (snapshot s, [])).2 :=
    predictOut_take f (snapshot s) hw 96 ((i : ℕ) + 1) (by omega)
  have htake0 : ((predictIter f 96 (snapshot s, [])).2).take (i : ℕ) =
      (predictIter f (i : ℕ) (snapshot s, [])).2 :=
    predictOut_take f (snapshot s) hw 96 (i : ℕ) (by omega)
  have hwin : (predictIter f (i : ℕ) (snapshot s, [])).1 =
      (snapshot s).drop (i : ℕ) ++ (predictIter f (i : ℕ) (snapshot s, [])).2 := by
    rw [(predictIter_len_win f (snapshot s) hw (i : ℕ)).2,
      List.drop_append_of_le_length (by omega)]
  have hval : ((predictIter f 96 (snapshot s, [])).2)[(i : ℕ)]? =
      some (f (predictIter f (i : ℕ) (snapshot s, [])).1) := by
    have h1 : ((predictIter f 96 (snapshot s, [])).2)[(i : ℕ)]? =
        (((predictIter f 96 (snapshot s, [])).2).take ((i : ℕ) + 1))[(i : ℕ)]? := by
      rw [List.getElem?_take]
      simp
    rw [h1, htake1, predictOut_succ,
      List.getElem?_append_right (by rw [hleni]),
      hleni]
    simp
  rw [hval, hwin, htake0]

/-! Scan lemmas for C3. -/

theorem ctrunc_nonneg (q : ℚ) (h : 0 ≤ q) : 0 ≤ ctrunc q := by
  unfold ctrunc
  rw [if_neg (not_lt.mpr h)]
  exact_mod_cast Rat.le_floor.mpr (by exact_mod_cast h)

theorem scanAux_none (sched : Fin 168 → ℚ) (cur : ℤ) (o : ℤ) (rem : ℕ)
    (h : ∀ j : ℕ, j < rem → ¬ sched (idx168 (cur + o + (j : ℤ))) > 0) :
    scanAux sched cur o rem = none := by
  induction rem generalizing o with
  | zero => rfl
  | succ rem ih =>
    unfold scanAux
    dsimp only
    rw [if_neg (by simpa using h 0 (by omega))]
    apply ih
    intro j hj
    have hidx : cur + (o + 1) + (j : ℤ) = cur + o + (((j + 1 : ℕ)) : ℤ) := by
      push_cast
      ring
    rw [hidx]
    exact h (j + 1) (by omega)

theorem scanAux_found (sched : Fin 168 → ℚ) (cur : ℤ) (o : ℤ) (rem j : ℕ)
    (hj : j < rem)
    (hpos : sched (idx168 (cur + o + (j : ℤ))) > 0)
    (hmin : ∀ j2 : ℕ, j2 < j → ¬ sched (idx168 (cur + o + (j2 : ℤ))) > 0) :
    scanAux sched cur o rem = some (idx168 (cur + o + (j : ℤ))) := by
  induction rem generalizing o j with
  | zero => omega
  | succ rem ih =>
    unfold scanAux
    dsimp only
    by_cases h0 : sched (idx168 (cur + o)) > 0
    · rw [if_pos h0]
      have hj0 : j = 0 := by
        by_contra hne
        exact hmin 0 (by omega) (by simpa using h0)
      subst hj0
      congr 2
      push_cast
      ring
    · rw [if_neg h0]
      have hj0 : j ≠ 0 := by
        intro hj0
        subst hj0
        apply h0
        simpa using hpos
      obtain ⟨j1, rfl⟩ : ∃ j1, j = j1 + 1 := ⟨j - 1, by omega⟩
      have hidx : ∀ k : ℕ, cur + (o + 1) + (k : ℤ) = cur + o + (((k + 1 : ℕ)) : ℤ) := by
        intro k
        push_cast
        ring
      rw [← hidx j1]
      apply ih (o + 1) j1 (by omega)
      · rw [hidx j1]
        exact hpos
      · intro j2 hj2
        rw [hidx j2]
        exact hmin (j2 + 1) (by omega)

/-- C3 (amended): with the schedule initialized and a well-formed clock,
`find_next_target` examines the 168 slot indices `(cur+1) % 168 ...
(cur+168) % 168`, which are pairwise distinct (each slot exactly once);
on an all-unset schedule it reports "none" (target 0, hour -1); otherwise it
returns the value and hour-of-day of the first positive slot of that forward
scan; every index examined before the final (168th) offset differs from the
current hour's slot, so the current slot can be returned only at the
full-week offset, when no other slot is set. -/
theorem C3_scan_amended (s : State)
    (hinit : s.scheduleInitialized = true)
    (hday : 0 ≤ s.simulatedDay) (hhour : 0 ≤ s.simulatedHour) :
    (((List.range 168).map (fun o : ℕ => idx168 (curAbs s + 1 + (o : ℤ)))).Nodup ∧
      ((List.range 168).map (fun o : ℕ => idx168 (curAbs s + 1 + (o : ℤ)))).length = 168) ∧
    ((∀ i : Fin 168, ¬ s.weeklySchedule i > 0) →
      (find_next_target s).nextTargetTemperature = 0 ∧
        (find_next_target s).nextTargetHour = -1) ∧
    (∀ o : ℕ, o < 168 → s.weeklySchedule (idx168 (curAbs s + 1 + (o : ℤ))) > 0 →
      (∀ o2 : ℕ, o2 < o → ¬ s.weeklySchedule (idx168 (curAbs s + 1 + (o2 : ℤ))) > 0) →
      (find_next_target s).nextTargetTemperature =
          s.weeklySchedule (idx168 (curAbs s + 1 + (o : ℤ))) ∧
        (find_next_target s).nextTargetHour =
          (((idx168 (curAbs s + 1 + (o : ℤ))).val % 24 : ℕ) : ℤ)) ∧
    (∀ o : ℕ, o < 167 → idx168 (curAbs s + 1 + (o : ℤ)) ≠ idx168 (curAbs s)) := by
  have hcur : 0 ≤ curAbs s := by
    unfold curAbs
    have := ctrunc_nonneg s.simulatedHour hhour
    nlinarith
  refine ⟨⟨?_, by rw [List.length_map, List.length_range]⟩, ?_, ?_, ?_⟩
  · refine List.Nodup.map_on ?_ (List.nodup_range 168)
    intro o1 ho1 o2 ho2 heq
    have h1 : o1 < 168 := List.mem_range.mp ho1
    have h2 : o2 < 168 := List.mem_range.mp ho2
    have hv : (curAbs s + 1 + (o1 : ℤ)).toNat % 168 = (curAbs s + 1 + (o2 : ℤ)).toNat % 168 := by
      simpa [idx168, Fin.ext_iff] using heq
    omega
  · intro hall
    unfold find_next_target
    rw [if_neg (by simp [hinit])]
    rw [show findNextScan s.weeklySchedule (curAbs s) = none from
      scanAux_none s.weeklySchedule (curAbs s) 1 168 (fun j _ => hall _)]
    exact ⟨rfl, rfl⟩
  · intro o ho hpos hmin
    unfold find_next_target
    rw [if_neg (by simp [hinit])]
    rw [show findNextScan s.weeklySchedule (curAbs s) =
        some (idx168 (curAbs s + 1 + (o : ℤ))) from
      scanAux_found s.weeklySchedule (curAbs s) 1 168 o ho hpos hmin]
    exact ⟨rfl, rfl⟩
  · intro o ho
    simp only [ne_eq, idx168, Fin.ext_iff]
    omega

/-- Counterexample to C3 as stated: with only the current hour's slot set
(day 0, hour 0, slot 0 holding 20), `find_next_target` returns exactly that
slot — its value and its hour — contradicting "never returns the slot equal
to the current hour". -/
theorem C3_claim_counterexample :
    (find_next_target cexCurSlotState).nextTargetTemperature =
        cexCurSlotState.weeklySchedule (idx168 (curAbs cexCurSlotState)) ∧
      (find_next_target cexCurSlotState).nextTargetHour =
        (((idx168 (curAbs cexCurSlotState)).val % 24 : ℕ) : ℤ) ∧
      cexCurSlotState.weeklySchedule (idx168 (curAbs cexCurSlotState)) > 0 := by
  exact ⟨by decide, by decide, by decide⟩

/-- Witness for C3 (amended): on the boot state (day 0, hour 0, default
schedule) the scan finds slot 7 holding 22°C, at hour 7. -/
theorem C3_scan_witness :
    (find_next_target bootBase).nextTargetTemperature = 22 ∧
      (find_next_target bootBase).nextTargetHour = 7 := by
  obtain ⟨-, -, h3, -⟩ :=
    C3_scan_amended bootBase rfl (by decide) (by decide)
  obtain ⟨h4, h5⟩ := h3 6 (by norm_num) (by decide) (by decide)
  constructor
  · rw [h4]
    decide
  · rw [h5]
    decide

/-! Analysis-loop lemmas for C1. -/

theorem stepOffset_eq (k : ℕ) : stepOffset k = (((k + 3) / 4 : ℕ) : ℤ) := by
  unfold stepOffset ctrunc
  have harg : ((k : ℚ) + 1) * (1/4) + 1/2 = (((k + 3 : ℕ) : ℤ) : ℚ) / ((4 : ℕ) : ℚ) := by
    push_cast
    ring
  rw [if_neg (not_lt.mpr (by positivity))]
  rw [harg, show ∀ q : ℚ, q.floor = ⌊q⌋ from fun _ => rfl, Rat.floor_intCast_div_natCast]
  norm_cast

theorem gapStep_critical (sched : Fin 168 → ℚ) (buf : Fin 96 → ℚ) (cur : ℤ)
    (acc : GapAcc) (st : Fin 96) :
    (gapStep sched buf cur acc st).criticalGapFound =
      (acc.criticalGapFound ||
        decide (sched (idx168 (cur + stepOffset st.val)) > 0 ∧
          sched (idx168 (cur + stepOffset st.val)) - buf st > TEMP_THRESHOLD_LOW)) := by
  unfold gapStep
  dsimp only
  by_cases h1 : sched (idx168 (cur + stepOffset st.val)) > 0
  · rw [if_pos h1]
    by_cases h2 : sched (idx168 (cur + stepOffset st.val)) - buf st > TEMP_THRESHOLD_LOW
    · rw [if_pos h2]
      simp [h1, h2]
    · rw [if_neg h2]
      by_cases h3 : sched (idx168 (cur + stepOffset st.val)) - buf st > acc.maxTempShortfall
      · rw [if_pos h3]
        simp [h1, h2]
      · rw [if_neg h3]
        simp [h1, h2]
  · rw [if_neg h1]
    simp [h1]

theorem gapStep_max (sched : Fin 168 → ℚ) (buf : Fin 96 → ℚ) (cur : ℤ)
    (acc : GapAcc) (st : Fin 96) :
    (gapStep sched buf cur acc st).maxTempShortfall =
      (if sched (idx168 (cur + stepOffset st.val)) > 0 ∧
          sched (idx168 (cur + stepOffset st.val)) - buf st > acc.maxTempShortfall
        then sched (idx168 (cur + stepOffset st.val)) - buf st
        else acc.maxTempShortfall) := by
  unfold gapStep
  dsimp only
  by_cases h1 : sched (idx168 (cur + stepOffset st.val)) > 0
  · rw [if_pos h1]
    by_cases h3 : sched (idx168 (cur + stepOffset st.val)) - buf st > acc.maxTempShortfall
    · rw [if_pos h3]
      by_cases h2 : sched (idx168 (cur + stepOffset st.val)) - buf st > TEMP_THRESHOLD_LOW
      · rw [if_pos h2, if_pos ⟨h1, h3⟩]
      · rw [if_neg h2, if_pos ⟨h1, h3⟩]
    · rw [if_neg h3]
      by_cases h2 : sched (idx168 (cur + stepOffset st.val)) - buf st > TEMP_THRESHOLD_LOW
      · rw [if_pos h2, if_neg (by tauto)]
      · rw [if_neg h2, if_neg (by tauto)]
  · rw [if_neg h1, if_neg (by tauto)]

theorem gapFold_critical (sched : Fin 168 → ℚ) (buf : Fin 96 → ℚ) (cur : ℤ)
    (l : List (Fin 96)) (acc : GapAcc) :
    (l.foldl (gapStep sched buf cur) acc).criticalGapFound =
      (acc.criticalGapFound ||
        l.any (fun st => decide (sched (idx168 (cur + stepOffset st.val)) > 0 ∧
          sched (idx168 (cur + stepOffset st.val)) - buf st > TEMP_THRESHOLD_LOW))) := by
  induction l generalizing acc with
  | nil => simp
  | cons st rest ih =>
    rw [List.foldl_cons, ih, gapStep_critical, List.any_cons, Bool.or_assoc]

theorem gapFold_max (sched : Fin 168 → ℚ) (buf : Fin 96 → ℚ) (cur : ℤ)
    (l : List (Fin 96)) (acc : GapAcc) :
    (l.foldl (gapStep sched buf cur) acc).maxTempShortfall =
      l.foldl
        (fun m st => if sched (idx168 (cur + stepOffset st.val)) > 0 ∧
            sched (idx168 (cur + stepOffset st.val)) - buf st > m
          then sched (idx168 (cur + stepOffset st.val)) - buf st else m)
        acc.maxTempShortfall := by
  induction l generalizing acc with
  | nil => simp
  | cons st rest ih =>
    rw [List.foldl_cons, List.foldl_cons, ih, gapStep_max]

/-- C1 (amended): at a 30-minute check with override inactive, auto-behavior
enabled, the schedule initialized, the prediction buffer filled, and at
least one of the 96 forecast steps having its future schedule slot set, the
heating decision is: if some set-slot step's gap (scheduled target minus
forecast) exceeds the 1.0 turn-on threshold, heating becomes true; else if
the tracked maximum gap (the code's running maximum, seeded with 0) is below
-2.0, heating becomes false; else heating keeps its previous value.  (When
no slot is set in the horizon the fallback bound policy applies instead.) -/
theorem C1_decision_amended (s : State)
    (hmo : s.isManualOverride = false)
    (hab : s.isAutoBehaviorEnabled = true)
    (hsched : s.scheduleInitialized = true)
    (hbuf : s.predictionBufferFilled = true)
    (hset : ∃ st : Fin 96, slotTargetAt s st > 0) :
    (control_heating s).isHeatingOn =
      (if ∃ st : Fin 96, slotTargetAt s st > 0 ∧ gapAt s st > TEMP_THRESHOLD_LOW then true
       else if trackedMaxGap s < -TEMP_THRESHOLD_HIGH then false
       else s.isHeatingOn) := by
  have hch : control_heating s =
      control_decide (find_next_target { s with targetTemperature := get_target_temperature s }) := by
    unfold control_heating
    rw [if_neg (by simp [hmo]), if_neg (by simp [hab])]
  set sA := find_next_target { s with targetTemperature := get_target_temperature s } with hsA
  have hA1 : sA.scheduleInitialized = true := by
    rw [hsA, find_next_target_scheduleInitialized]
    exact hsched
  have hA2 : sA.predictionBufferFilled = true := by
    rw [hsA, find_next_target_predictionBufferFilled]
    exact hbuf
  have hA3 : sA.weeklySchedule = s.weeklySchedule := by
    rw [hsA, find_next_target_weeklySchedule]
  have hA4 : sA.predictionBuffer = s.predictionBuffer := by
    rw [hsA, find_next_target_predictionBuffer]
  have hA5 : curAbs sA = curAbs s := by
    rw [hsA, curAbs_find_next_target]
    rfl
  have hA6 : sA.isHeatingOn = s.isHeatingOn := by
    rw [hsA, find_next_target_isHeatingOn]
  rw [hch]
  unfold control_decide
  rw [if_neg (by simp [hA1, hA2])]
  dsimp only
  rw [hA3, hA4, hA5, hA6]
  have hany : ((List.finRange 96).any
      (fun st => decide (s.weeklySchedule (idx168 (curAbs s + stepOffset st.val)) > 0))) = true := by
    rw [List.any_eq_true]
    obtain ⟨st, hst⟩ := hset
    exact ⟨st, List.mem_finRange st, decide_eq_true hst⟩
  rw [hany]
  have hcrit : (gapScan s.weeklySchedule s.predictionBuffer (curAbs s)).criticalGapFound =
      ((List.finRange 96).any
        (fun st => decide (slotTargetAt s st > 0 ∧ gapAt s st > TEMP_THRESHOLD_LOW))) := by
    unfold gapScan
    rw [gapFold_critical]
    rfl
  have hmax : (gapScan s.weeklySchedule s.predictionBuffer (curAbs s)).maxTempShortfall =
      trackedMaxGap s := by
    unfold gapScan trackedMaxGap
    rw [gapFold_max]
    rfl
  rw [hcrit, hmax]
  by_cases hex : ∃ st : Fin 96, slotTargetAt s st > 0 ∧ gapAt s st > TEMP_THRESHOLD_LOW
  · have h1 : ((List.finRange 96).any
        (fun st => decide (slotTargetAt s st > 0 ∧ gapAt s st > TEMP_THRESHOLD_LOW))) = true := by
      rw [List.any_eq_true]
      obtain ⟨st, h⟩ := hex
      exact ⟨st, List.mem_finRange st, decide_eq_true h⟩
    rw [if_pos hex, h1]
    simp
  · have h1 : ((List.finRange 96).any
        (fun st => decide (slotTargetAt s st > 0 ∧ gapAt s st > TEMP_THRESHOLD_LOW))) = false := by
      rw [Bool.eq_false_iff]
      intro hc
      rw [List.any_eq_true] at hc
      obtain ⟨st, -, hst⟩ := hc
      exact hex ⟨st, of_decide_eq_true hst⟩
    rw [if_neg hex, h1]
    simp

/-- Counterexample to C1 as stated: a schedule-initialized state whose 168
slots are all unset (reachable by a bulk replace of zeros), prediction
buffer filled with 5°C everywhere, heating previously off.  No step has a
set slot, so no gap exceeds the turn-on threshold and the tracked maximum
gap is 0 ≥ -2, so the claim says heating keeps its previous value (false);
but the code's fallback bound policy turns heating on (predicted 5°C <
10°C). -/
theorem C1_claim_counterexample :
    cexNoSlotState.isManualOverride = false ∧
      cexNoSlotState.isAutoBehaviorEnabled = true ∧
      cexNoSlotState.scheduleInitialized = true ∧
      cexNoSlotState.predictionBufferFilled = true ∧
      (∀ st : Fin 96, ¬ (slotTargetAt cexNoSlotState st > 0 ∧
        gapAt cexNoSlotState st > TEMP_THRESHOLD_LOW)) ∧
      ¬ trackedMaxGap cexNoSlotState < -TEMP_THRESHOLD_HIGH ∧
      cexNoSlotState.isHeatingOn = false ∧
      (control_heating cexNoSlotState).isHeatingOn = true := by
  have hslot : ∀ st : Fin 96, slotTargetAt cexNoSlotState st = 0 := fun _ => rfl
  refine ⟨rfl, rfl, rfl, rfl, ?_, by decide, rfl, by decide⟩
  intro st
  rw [hslot st]
  simp

/-- Witness for C1 (amended): boot state with the default schedule, flat
15°C forecast, heating off; slot 7 (22°C) yields a 7°C gap, so heating
turns on. -/
theorem C1_decision_witness :
    witGapState.isManualOverride = false ∧
      witGapState.isAutoBehaviorEnabled = true ∧
      witGapState.scheduleInitialized = true ∧
      witGapState.predictionBufferFilled = true ∧
      (∃ st : Fin 96, slotTargetAt witGapState st > 0) ∧
      (control_heating witGapState).isHeatingOn =
        (if ∃ st : Fin 96, slotTargetAt witGapState st > 0 ∧
            gapAt witGapState st > TEMP_THRESHOLD_LOW then true
         else if trackedMaxGap witGapState < -TEMP_THRESHOLD_HIGH then false
         else witGapState.isHeatingOn) := by
  have hex : ∃ st : Fin 96, slotTargetAt witGapState st > 0 := by
    refine ⟨⟨26, by norm_num⟩, ?_⟩
    simp only [slotTargetAt, stepOffset_eq]
    decide
  exact ⟨rfl, rfl, rfl, rfl, hex, C1_decision_amended witGapState rfl rfl rfl rfl hex⟩

/-- C2 (code bug witness): the schedule-replace handler evaluated at the
two-entry request `[15, 99]` reports failure, yet slot 0 of the schedule has
been overwritten from its previous value 0 to 15 — a partial mutation on a
rejected request. -/
theorem C2_failed_replace_mutates :
    (schedule_put model0 bootBase schedCexPayload).2 = false ∧
      (schedule_put model0 bootBase schedCexPayload).1.weeklySchedule (0 : Fin 168) = 15 ∧
      bootBase.weeklySchedule (0 : Fin 168) = 0 := by
  refine ⟨by decide, by decide, by decide⟩

/-- C8: a sensor tick never reaches the MQTT publish step while the clock is
unsynchronized: for every environment, predictor and state, if the tick
published then the clock was synchronized when the tick started (and the
tick does not change the flag). -/
theorem C8_no_publish_unsynced (f : List ℚ → ℚ) (env : Env) (s : State)
    (hpub : (tick f env s).2 = true) : s.clockSynced = true := by
  unfold tick at hpub
  dsimp only at hpub
  cases hr : env.reachable with
  | false =>
    rw [hr] at hpub
    simp at hpub
  | true =>
    rw [hr] at hpub
    simp only [if_true, reduceIte] at hpub
    cases hcs : (tickSensors f env (tickPre env s)).clockSynced with
    | true =>
      rw [← hcs, tickSensors_clockSynced, tickPre_clockSynced]
    | false =>
      rw [hcs] at hpub
      simp at hpub

/-- Witness for C8: a concrete synchronized, reachable tick publishes, and
the theorem recovers the synchronized flag from that fact. -/
theorem C8_no_publish_unsynced_witness :
    (tick model0 env0 syncState).2 = true ∧ syncState.clockSynced = true := by
  have hcs : (tickSensors model0 env0 (tickPre env0 syncState)).clockSynced = true := by
    rw [tickSensors_clockSynced, tickPre_clockSynced]
    rfl
  have hpub : (tick model0 env0 syncState).2 = true := by
    unfold tick
    dsimp only
    rw [if_pos (show env0.reachable = true from rfl)]
    simp [hcs]
  exact ⟨hpub, C8_no_publish_unsynced model0 env0 syncState hpub⟩

/-! Invariant lemmas for C9. -/

theorem ValidSlot_intCast (v : ℤ) (hv : v = 0 ∨ (10 ≤ v ∧ v ≤ 30)) :
    ValidSlot ((v : ℚ)) := by
  rcases hv with rfl | ⟨h1, h2⟩
  · left
    exact_mod_cast rfl
  · right
    refine ⟨Rat.den_intCast v, ?_, ?_⟩
    · exact_mod_cast h1
    · exact_mod_cast h2

theorem schedWrite_valid (vs : List ℤ) (sched : Fin 168 → ℚ) (idx : ℕ)
    (h : ∀ i, ValidSlot (sched i)) : ∀ i, ValidSlot ((schedWrite sched idx vs).1 i) := by
  induction vs generalizing sched idx with
  | nil => exact h
  | cons v rest ih =>
    unfold schedWrite
    split
    · split
      · next hlt hv =>
        apply ih
        intro i
        by_cases hi : i = (⟨idx, hlt⟩ : Fin 168)
        · subst hi
          rw [Function.update_same]
          exact ValidSlot_intCast v hv
        · rw [Function.update_noteq hi]
          exact h i
      · exact h
    · exact h

/-- C9 (invariant): in every reachable state every one of the 168 weekly
schedule slots is 0 or a whole-degree value in [10, 30]: the boot state
writes only 0, 18 and 22, the schedule-replace handler validates every
entry before writing it (even in requests that ultimately fail), and no
other operation writes the schedule. -/
theorem C9_schedule_slots_valid (s : State) (hs : Reachable s) :
    ∀ i : Fin 168, ValidSlot (s.weeklySchedule i) := by
  induction hs with
  | boot =>
    intro i
    rw [show initState.weeklySchedule = defaultSchedule from by
      unfold initState; rw [find_next_target_weeklySchedule]; rfl]
    unfold defaultSchedule
    split_ifs <;> first
      | exact Or.inl rfl
      | exact Or.inr ⟨rfl, by norm_num, by norm_num⟩
  | tickStep f env s hs ih =>
    intro i
    rw [tick_weeklySchedule]
    exact ih i
  | schedulePut f vs s hs ih =>
    intro i
    unfold schedule_put
    dsimp only
    split
    · exact schedWrite_valid vs _ 0 ih i
    · split
      · rw [predict_weeklySchedule, find_next_target_weeklySchedule]
        exact schedWrite_valid vs _ 0 ih i
      · exact schedWrite_valid vs _ 0 ih i
  | timeSyncPut f d h m s hs ih =>
    intro i
    rw [time_sync_put_weeklySchedule]
    exact ih i
  | settingsPut m s hs ih =>
    intro i
    rw [settings_put_weeklySchedule]
    exact ih i
  | buttonPress s hs ih =>
    intro i
    rw [handle_button_press_weeklySchedule]
    exact ih i

/-- Witness for C9: the boot state is reachable and its slots are valid. -/
theorem C9_schedule_slots_valid_witness :
    Reachable initState ∧ ∀ i : Fin 168, ValidSlot (initState.weeklySchedule i) :=
  ⟨Reachable.boot, C9_schedule_slots_valid initState Reachable.boot⟩

end Node3
